import Mathlib

/-!
Verification of the calculation engine of the IS601 midterm calculator
(`app/calculator.py`, `app/operations.py`).

Numbers flow through the engine as `decimal.Decimal` values; we embed them
as rationals (`ℚ`).  Python's mutable `Calculator` object becomes an
explicit state record, and every method that mutates the object is a
function from the old state to the new state together with its return
value or raised exception.
-/

namespace App

/-- Modelled from the spec: `app/exceptions.py` is not under `src/`.
Spec §7 names the taxonomy `ValidationError` (invalid operand or
precondition) and `OperationError` (operation-level failure wrapping the
underlying cause message).  `AttributeError`, `ValueError` and
`ZeroDivisionError` are Python built-ins that the code under `src/` can
raise. -/
inductive Err where
  | validationError (msg : String)
  | operationError (msg : String)
  | attributeError (msg : String)
  | valueError (msg : String)
  | zeroDivisionError (msg : String)
deriving DecidableEq

/-- The message carried by an exception (`str(e)` in Python). -/
def Err.msg : Err → String
  | .validationError m => m
  | .operationError m => m
  | .attributeError m => m
  | .valueError m => m
  | .zeroDivisionError m => m

/-- Modelled from the spec: `app/calculation.py` is not under `src/`.
Spec §3 describes the History Entry as the immutable tuple
`(operation_name, operand1, operand2, result, timestamp)`; the engine
(`Calculator.perform_operation`) constructs it from the operation's
display name and the two validated operands.  The derived `result` and
`timestamp` fields are opaque to every property verified here and are
omitted. -/
structure Calculation where
  operation : String
  operand1 : ℚ
  operand2 : ℚ
deriving DecidableEq

/-- Modelled from the spec: `app/calculator_momento.py` is not under
`src/`.  Spec §3: a Memento is an immutable copy of the History List at a
point in time; `CalculatorMemento(self.history.copy())` in the source is
exactly the copied list. -/
abbrev CalculatorMemento := List Calculation

/-- Modelled from the spec: `app/input_validators.py`
(`InputValidator.validate_number`) is not under `src/`.  Spec §4.1: a pure
function that normalizes the raw input to a decimal value and fails with
`ValidationError` when it cannot be parsed or its magnitude exceeds the
configured maximum.  We embed already-numeric input, so only the magnitude
ceiling remains. -/
def validate_number (x : ℚ) (max_abs : ℚ) : Except Err ℚ :=
  if |x| > max_abs then .error (.validationError "Value exceeds maximum allowed")
  else .ok x

/-- Truncation toward zero, the semantics of Python's `int(Decimal)`. -/
def ratTrunc (q : ℚ) : ℤ :=
  if q < 0 then -⌊-q⌋ else ⌊q⌋

/-- An operation strategy (`app/operations.py`, class `Operation`): a
display name (`__str__` returns the class name), the overridable
`validate_operands`, and `execute`. -/
structure Operation where
  name : String
  validate_operands : ℚ → ℚ → Except Err Unit
  execute : ℚ → ℚ → Except Err ℚ

/-- Base-class `Operation.validate_operands`: a no-op. -/
def base_validate_operands (_a _b : ℚ) : Except Err Unit := .ok ()

/-- `add.execute`: validate (base no-op), then `a + b`. -/
def add_execute (a b : ℚ) : Except Err ℚ :=
  match base_validate_operands a b with
  | .error e => .error e
  | .ok _ => .ok (a + b)

def add_op : Operation := ⟨"add", base_validate_operands, add_execute⟩

/-- `sub.execute`: validate (base no-op), then `a - b`. -/
def sub_execute (a b : ℚ) : Except Err ℚ :=
  match base_validate_operands a b with
  | .error e => .error e
  | .ok _ => .ok (a - b)

def sub_op : Operation := ⟨"sub", base_validate_operands, sub_execute⟩

/-- `mult.execute`: validate (base no-op), then `a * b`. -/
def mult_execute (a b : ℚ) : Except Err ℚ :=
  match base_validate_operands a b with
  | .error e => .error e
  | .ok _ => .ok (a * b)

def mult_op : Operation := ⟨"mult", base_validate_operands, mult_execute⟩

/-- `div.validate_operands`: rejects a zero divisor. -/
def div_validate_operands (_a b : ℚ) : Except Err Unit :=
  if b = 0 then .error (.validationError "Division by zero is not allowed")
  else .ok ()

/-- `div.execute`: validate, then `a / b`. -/
def div_execute (a b : ℚ) : Except Err ℚ :=
  match div_validate_operands a b with
  | .error e => .error e
  | .ok _ => .ok (a / b)

def div_op : Operation := ⟨"div", div_validate_operands, div_execute⟩

/-- `exp.validate_operands`: rejects a negative exponent. -/
def exp_validate_operands (_a b : ℚ) : Except Err Unit :=
  if b < 0 then .error (.validationError "Negative exponents not supported")
  else .ok ()

/-- `root.validate_operands`: rejects a negative radicand and a zero
degree. -/
def root_validate_operands (a b : ℚ) : Except Err Unit :=
  if a < 0 then .error (.validationError "Cannot calculate root of negative number")
  else if b = 0 then .error (.validationError "Zero root is undefined")
  else .ok ()

/-- `mod.validate_operands`: rejects a zero divisor. -/
def mod_validate_operands (_a b : ℚ) : Except Err Unit :=
  if b = 0 then .error (.validationError "Division by zero is not allowed")
  else .ok ()

/-- `mod.execute`: validate, then `a % b`.  Python's `Decimal.__mod__` is
the truncated remainder (sign of the dividend): `a - trunc(a/b) * b`. -/
def mod_execute (a b : ℚ) : Except Err ℚ :=
  match mod_validate_operands a b with
  | .error e => .error e
  | .ok _ => .ok (a - (ratTrunc (a / b) : ℚ) * b)

def mod_op : Operation := ⟨"mod", mod_validate_operands, mod_execute⟩

/-- `idiv.validate_operands`: rejects a zero divisor. -/
def idiv_validate_operands (_a b : ℚ) : Except Err Unit :=
  if b = 0 then .error (.validationError "Division by zero is not allowed")
  else .ok ()

/-- `idiv.execute`: validate, then `int(a) // int(b)`.  `int` truncates a
`Decimal` toward zero; `//` on Python ints is floor division
(`Int.fdiv`); when `int(b)` is `0` while `b ≠ 0`, Python raises
`ZeroDivisionError`. -/
def idiv_execute (a b : ℚ) : Except Err ℤ :=
  match idiv_validate_operands a b with
  | .error e => .error e
  | .ok _ =>
    if ratTrunc b = 0 then .error (.zeroDivisionError "integer division or modulo by zero")
    else .ok ((ratTrunc a).fdiv (ratTrunc b))

def idiv_op : Operation :=
  ⟨"idiv", idiv_validate_operands, fun a b => (idiv_execute a b).map (fun z => (z : ℚ))⟩

/-- `perc.validate_operands`: rejects a zero divisor. -/
def perc_validate_operands (_a b : ℚ) : Except Err Unit :=
  if b = 0 then .error (.validationError "Division by zero is not allowed")
  else .ok ()

/-- `perc.execute`: validate, then `(a / b) * 100`. -/
def perc_execute (a b : ℚ) : Except Err ℚ :=
  match perc_validate_operands a b with
  | .error e => .error e
  | .ok _ => .ok ((a / b) * 100)

def perc_op : Operation := ⟨"perc", perc_validate_operands, perc_execute⟩

/-- `absv.execute`: `abs(a - b)` (no validation override). -/
def absv_execute (a b : ℚ) : Except Err ℚ := .ok |a - b|

def absv_op : Operation := ⟨"absv", base_validate_operands, absv_execute⟩

/-- The state of one `Calculator` instance (`app/calculator.py`).
Observers are identified by an id; the engine only ever iterates over the
list and calls `update`, which we record as notification events.
`__init__` (line 38) assigns the misspelled attribute
`operation_stratetgy`, so the attribute `operation_strategy` that
`perform_operation` reads does not exist until `set_operation` runs;
`operation_strategy = none` models that absent attribute.
`max_input_value` is the configured magnitude ceiling (the
`CalculatorConfig` collaborator, consumed as an opaque validated
settings object). -/
structure Calculator where
  history : List Calculation
  operation_stratetgy : Option Operation
  operation_strategy : Option Operation
  observers : List Nat
  undo_stack : List CalculatorMemento
  redo_stack : List CalculatorMemento
  max_input_value : ℚ

/-- `Calculator.__init__` with no readable history file: empty history,
empty stacks, no observers, `operation_stratetgy = None` (the typo), and
the correctly spelled attribute never assigned. -/
def Calculator.init (max_abs : ℚ) : Calculator :=
  { history := []
    operation_stratetgy := none
    operation_strategy := none
    observers := []
    undo_stack := []
    redo_stack := []
    max_input_value := max_abs }

/-- `add_observer`: `self.observers.append(observer)`. -/
def Calculator.add_observer (s : Calculator) (o : Nat) : Calculator :=
  { s with observers := s.observers ++ [o] }

/-- Python's `list.remove(x)`: delete the first occurrence equal to `x`,
or raise `ValueError` (leaving the list unchanged) when there is none. -/
def list_remove (l : List Nat) (o : Nat) : Except Err (List Nat) :=
  match l with
  | [] => .error (.valueError "list.remove(x): x not in list")
  | x :: xs =>
    if x = o then .ok xs
    else
      match list_remove xs o with
      | .error e => .error e
      | .ok xs' => .ok (x :: xs')

/-- `remove_observer`: `self.observers.remove(observer)`.  On the
`ValueError` path the observer list is untouched. -/
def Calculator.remove_observer (s : Calculator) (o : Nat) : Calculator × Option Err :=
  match list_remove s.observers o with
  | .error e => (s, some e)
  | .ok l => ({ s with observers := l }, none)

/-- `notify_observers`: `for observer in self.observers:
observer.update(calculation)` — one `update` event per observer, in list
order. -/
def Calculator.notify_observers (s : Calculator) (c : Calculation) : List (Nat × Calculation) :=
  s.observers.map fun o => (o, c)

/-- `set_operation`: assigns the (correctly spelled) attribute
`operation_strategy`. -/
def Calculator.set_operation (s : Calculator) (op : Operation) : Calculator :=
  { s with operation_strategy := some op }

/-- The `try`-block policy of `perform_operation`: a `ValidationError` is
re-raised unchanged; any other exception is wrapped into
`OperationError(f"Operation failed: ...")`. -/
def wrap_perform_error (e : Err) : Err :=
  match e with
  | .validationError m => .validationError m
  | e => .operationError ("Operation failed: " ++ e.msg)

/-- `perform_operation(a, b)`.  Returns the state after the call together
with either the raised exception or the computed result plus the list of
observer `update` events issued during the call.

Reading `self.operation_strategy` on a state where `set_operation` never
ran raises `AttributeError` (the `__init__` typo, see `Calculator`); when
the attribute holds an operation instance it is truthy, so the
`raise OperationError("No Operation Set")` branch of the source is
unreachable.  On success the source pushes a memento of the pre-append
history, clears the redo stack, appends the new entry and returns — it
never calls `notify_observers`, so the event list of a successful call is
empty. -/
def Calculator.perform_operation (s : Calculator) (a b : ℚ) :
    Calculator × Except Err (ℚ × List (Nat × Calculation)) :=
  match s.operation_strategy with
  | none => (s, .error (.attributeError "The Calculator object has no attribute operation_strategy"))
  | some op =>
    match validate_number a s.max_input_value with
    | .error e => (s, .error (wrap_perform_error e))
    | .ok va =>
      match validate_number b s.max_input_value with
      | .error e => (s, .error (wrap_perform_error e))
      | .ok vb =>
        match op.execute va vb with
        | .error e => (s, .error (wrap_perform_error e))
        | .ok result =>
          let calculation : Calculation :=
            { operation := op.name, operand1 := va, operand2 := vb }
          ({ s with
              undo_stack := s.undo_stack ++ [s.history]
              redo_stack := []
              history := s.history ++ [calculation] },
            .ok (result, []))

/-- `clear_history`: empties the history and both stacks. -/
def Calculator.clear_history (s : Calculator) : Calculator :=
  { s with history := [], undo_stack := [], redo_stack := [] }

/-- `undo`: `False` on an empty undo stack; otherwise pop the last
memento, push a memento of the current history onto the redo stack, and
restore the popped history. -/
def Calculator.undo (s : Calculator) : Bool × Calculator :=
  match s.undo_stack.getLast? with
  | none => (false, s)
  | some memento =>
    (true,
      { s with
          undo_stack := s.undo_stack.dropLast
          redo_stack := s.redo_stack ++ [s.history]
          history := memento })

/-- `redo`: symmetric to `undo`, operating on the redo stack. -/
def Calculator.redo (s : Calculator) : Bool × Calculator :=
  match s.redo_stack.getLast? with
  | none => (false, s)
  | some memento =>
    (true,
      { s with
          redo_stack := s.redo_stack.dropLast
          undo_stack := s.undo_stack ++ [s.history]
          history := memento })

/-- The observable states of the external history file consumed by
`load_history`: absent, unreadable (a `pd.read_csv` failure or a row that
`Calculation.from_dict` — repository code not under `src/` — rejects),
or a successfully read table of entries. -/
inductive FileState where
  | missing
  | unreadable
  | table (rows : List Calculation)

/-- `load_history`: a missing file and an empty table both leave the
in-memory history untouched and raise nothing; a read/parse failure
raises `OperationError` before `self.history` is reassigned; a non-empty
table replaces the history wholesale. -/
def Calculator.load_history (s : Calculator) (fs : FileState) : Calculator × Option Err :=
  match fs with
  | .missing => (s, none)
  | .unreadable => (s, some (.operationError "Failed to load history"))
  | .table rows =>
    if rows.isEmpty then (s, none)
    else ({ s with history := rows }, none)

/-! ### Helper lemmas -/

theorem validate_number_ok {x max_abs : ℚ} (h : |x| ≤ max_abs) :
    validate_number x max_abs = .ok x := by
  unfold validate_number
  rw [if_neg (not_lt.2 h)]

theorem perform_operation_ok (s : Calculator) (op : Operation) (a b va vb r : ℚ)
    (hop : s.operation_strategy = some op)
    (hva : validate_number a s.max_input_value = .ok va)
    (hvb : validate_number b s.max_input_value = .ok vb)
    (hex : op.execute va vb = .ok r) :
    s.perform_operation a b =
      ({ s with
          undo_stack := s.undo_stack ++ [s.history]
          redo_stack := []
          history := s.history ++ [⟨op.name, va, vb⟩] },
        .ok (r, [])) := by
  unfold Calculator.perform_operation
  simp only [hop, hva, hvb, hex]

theorem perform_operation_execute_error (s : Calculator) (op : Operation) (a b va vb : ℚ)
    (e : Err)
    (hop : s.operation_strategy = some op)
    (hva : validate_number a s.max_input_value = .ok va)
    (hvb : validate_number b s.max_input_value = .ok vb)
    (hex : op.execute va vb = .error e) :
    s.perform_operation a b = (s, .error (wrap_perform_error e)) := by
  unfold Calculator.perform_operation
  simp only [hop, hva, hvb, hex]

theorem fdiv_neg_neg (m n : ℤ) : Int.fdiv (-m) (-n) = Int.fdiv m n := by
  rcases n with (_ | n) | n
  · show Int.fdiv (-m) (-(0:ℤ)) = Int.fdiv m 0
    rw [neg_zero, Int.fdiv_zero, Int.fdiv_zero]
  · rcases m with (_ | m) | m <;> rfl
  · rcases m with (_ | m) | m <;> rfl

theorem fdiv_eq_floor_of_pos (m n : ℤ) (hn : 0 < n) : m.fdiv n = ⌊(m : ℚ) / (n : ℚ)⌋ := by
  rw [Int.fdiv_eq_ediv m hn.le]
  have hn' : ((n.toNat : ℕ) : ℤ) = n := Int.toNat_of_nonneg hn.le
  have hq : ((n.toNat : ℕ) : ℚ) = (n : ℚ) := by exact_mod_cast congrArg (Int.cast : ℤ → ℚ) hn'
  rw [← hq, Rat.floor_intCast_div_natCast m n.toNat, hn']

theorem fdiv_eq_floor (m n : ℤ) (hn : n ≠ 0) : m.fdiv n = ⌊(m : ℚ) / (n : ℚ)⌋ := by
  rcases hn.lt_or_lt with hneg | hpos
  · rw [← fdiv_neg_neg m n, fdiv_eq_floor_of_pos (-m) (-n) (by omega)]
    congr 1
    push_cast
    rw [neg_div_neg_eq]
  · exact fdiv_eq_floor_of_pos m n hpos

theorem ratTrunc_zero : ratTrunc 0 = 0 := by
  unfold ratTrunc
  rw [if_neg (lt_irrefl 0)]
  exact Int.floor_zero

theorem list_remove_of_not_mem {l : List Nat} {o : Nat} (h : o ∉ l) :
    list_remove l o = .error (.valueError "list.remove(x): x not in list") := by
  induction l with
  | nil => rfl
  | cons x xs ih =>
    rw [List.mem_cons, not_or] at h
    unfold list_remove
    rw [if_neg (fun hx => h.1 hx.symm), ih h.2]

theorem list_remove_of_mem {l : List Nat} {o : Nat} (h : o ∈ l) :
    ∃ l1 l2, l = l1 ++ o :: l2 ∧ o ∉ l1 ∧ list_remove l o = .ok (l1 ++ l2) := by
  induction l with
  | nil => cases h
  | cons x xs ih =>
    by_cases hx : x = o
    · exact ⟨[], xs, by simp [hx], by simp, by unfold list_remove; rw [if_pos hx]; rfl⟩
    · have hmem : o ∈ xs := by
        rcases List.mem_cons.1 h with h1 | h2
        · exact absurd h1.symm hx
        · exact h2
      obtain ⟨l1, l2, heq, hnot, hrm⟩ := ih hmem
      refine ⟨x :: l1, l2, by simp [heq], ?_, ?_⟩
      · rw [List.mem_cons, not_or]
        exact ⟨fun hh => hx hh.symm, hnot⟩
      · unfold list_remove
        rw [if_neg hx, hrm]
        rfl

/-! ### Concrete engine states used by the claim witnesses -/

/-- A fresh engine on which `set_operation(add())` has run. -/
def ready_add : Calculator := (Calculator.init 1000000).set_operation add_op

/-- A fresh engine on which `set_operation(div())` has run. -/
def ready_div : Calculator := (Calculator.init 1000000).set_operation div_op

/-- A fresh engine with the add operation selected and one registered
observer (id 7). -/
def obs_state : Calculator := ((Calculator.init 1000000).set_operation add_op).add_observer 7

/-! ### Claim theorems -/

/-- C4: calling `perform_operation` on a freshly constructed engine (no
`set_operation` since `__init__`) raises `AttributeError`, because
`__init__` only assigns the misspelled `operation_stratetgy` — it does
not raise `OperationError("no operation set")` as the spec demands. -/
theorem perform_idle_attribute_error (maxv : ℚ) :
    (Calculator.init maxv).perform_operation 2 3 =
      (Calculator.init maxv,
        .error (.attributeError "The Calculator object has no attribute operation_strategy")) :=
  rfl

/-- C9: `undo()` on a state whose undo stack is empty returns `false` and
leaves the whole state (history list, undo stack, redo stack) unchanged;
an immediately repeated call again returns `false` on the same state. -/
theorem undo_empty_stack_noop (s : Calculator) (h : s.undo_stack = []) :
    s.undo = (false, s) ∧ (s.undo).2.undo = (false, s) := by
  have h1 : s.undo = (false, s) := by
    unfold Calculator.undo
    rw [h]
    simp
  exact ⟨h1, by rw [h1]; exact h1⟩

/-- Closed witness for C9 at a freshly constructed engine. -/
theorem undo_empty_stack_noop_witness :
    (Calculator.init 1000000).undo = (false, Calculator.init 1000000) ∧
    ((Calculator.init 1000000).undo).2.undo = (false, Calculator.init 1000000) :=
  undo_empty_stack_noop (Calculator.init 1000000) rfl

/-- C3: on any engine state with a non-empty undo stack, `undo()`
followed immediately by `redo()` returns `true` both times and restores
the history list to what it was before the undo. -/
theorem undo_redo_roundtrip (s : Calculator) (h : s.undo_stack ≠ []) :
    (s.undo).1 = true ∧ ((s.undo).2.redo).1 = true ∧
      ((s.undo).2.redo).2.history = s.history := by
  have hgl : s.undo_stack.getLast? = some (s.undo_stack.getLast h) :=
    List.getLast?_eq_getLast s.undo_stack h
  have h1 : s.undo = (true,
      { s with
          undo_stack := s.undo_stack.dropLast
          redo_stack := s.redo_stack ++ [s.history]
          history := s.undo_stack.getLast h }) := by
    unfold Calculator.undo
    rw [hgl]
  refine ⟨by rw [h1], ?_, ?_⟩ <;>
    · rw [h1]
      unfold Calculator.redo
      simp only [List.getLast?_concat]

/-- Closed witness for C3: the state reached by one successful `perform`
on a fresh engine has a non-empty undo stack, and the round trip holds
there. -/
theorem undo_redo_roundtrip_witness :
    ((ready_add.perform_operation 2 3).1.undo).1 = true ∧
    (((ready_add.perform_operation 2 3).1.undo).2.redo).1 = true ∧
    ((((ready_add.perform_operation 2 3).1.undo).2.redo).2).history =
      (ready_add.perform_operation 2 3).1.history :=
  undo_redo_roundtrip (ready_add.perform_operation 2 3).1 (by
    have hva : validate_number 2 ready_add.max_input_value = .ok 2 :=
      validate_number_ok (by show |(2:ℚ)| ≤ 1000000; norm_num)
    have hvb : validate_number 3 ready_add.max_input_value = .ok 3 :=
      validate_number_ok (by show |(3:ℚ)| ≤ 1000000; norm_num)
    have hex : add_op.execute 2 3 = .ok 5 := by
      show add_execute 2 3 = .ok 5
      norm_num [add_execute, base_validate_operands]
    rw [perform_operation_ok ready_add add_op 2 3 2 3 5 rfl hva hvb hex]
    simp)

/-- C10: `remove_observer` with an observer that is not registered raises
`ValueError` and leaves the state unchanged; with a registered observer
it removes exactly the first occurrence. -/
theorem remove_observer_spec (s : Calculator) (o : Nat) :
    (o ∉ s.observers →
      s.remove_observer o = (s, some (.valueError "list.remove(x): x not in list"))) ∧
    (o ∈ s.observers → ∃ l1 l2, s.observers = l1 ++ o :: l2 ∧ o ∉ l1 ∧
      s.remove_observer o = ({ s with observers := l1 ++ l2 }, none)) := by
  constructor
  · intro h
    unfold Calculator.remove_observer
    rw [list_remove_of_not_mem h]
  · intro h
    obtain ⟨l1, l2, heq, hnot, hrm⟩ := list_remove_of_mem h
    exact ⟨l1, l2, heq, hnot, by unfold Calculator.remove_observer; rw [hrm]⟩

/-- Closed witness for C10 on an engine with observer 7 registered:
removing the absent observer 9 errors, removing 7 removes its first
occurrence. -/
theorem remove_observer_spec_witness :
    obs_state.remove_observer 9 = (obs_state, some (.valueError "list.remove(x): x not in list")) ∧
    (∃ l1 l2, obs_state.observers = l1 ++ 7 :: l2 ∧ 7 ∉ l1 ∧
      obs_state.remove_observer 7 = ({ obs_state with observers := l1 ++ l2 }, none)) :=
  ⟨(remove_observer_spec obs_state 9).1 (by decide),
    (remove_observer_spec obs_state 7).2 (by decide)⟩

/-- C7 counterexample: loading a successfully-read but empty history
table does NOT replace the in-memory history with the file's (empty) list
of entries — the old entries survive a successful `load`. -/
theorem load_empty_table_keeps_history :
    (({ Calculator.init 1000000 with history := [⟨"add", 2, 3⟩] }).load_history (.table [])).2
      = none ∧
    (({ Calculator.init 1000000 with history := [⟨"add", 2, 3⟩] }).load_history (.table [])).1.history
      ≠ [] := by
  exact ⟨rfl, by simp [Calculator.load_history]⟩

/-- C7 amended: `load_history` keeps the in-memory history untouched when
the file is missing (and raises nothing — missing is not an error) and
when reading fails (raising `OperationError`); on a successful read it
replaces the history wholesale when the table is non-empty, but a
successfully read empty table also leaves the history untouched. -/
theorem load_history_cases (s : Calculator) (rows : List Calculation) (hr : rows ≠ []) :
    s.load_history .missing = (s, none) ∧
    (s.load_history .unreadable).1 = s ∧
    (s.load_history .unreadable).2 = some (.operationError "Failed to load history") ∧
    s.load_history (.table rows) = ({ s with history := rows }, none) ∧
    s.load_history (.table []) = (s, none) := by
  refine ⟨rfl, rfl, rfl, ?_, rfl⟩
  show (if rows.isEmpty = true then (s, (none : Option Err))
        else ({ s with history := rows }, none)) = ({ s with history := rows }, none)
  rw [if_neg (by simp [List.isEmpty_iff, hr])]

/-- Closed witness for C7 at a concrete state and a one-row table. -/
theorem load_history_cases_witness :
    (Calculator.init 1000000).load_history .missing = (Calculator.init 1000000, none) ∧
    ((Calculator.init 1000000).load_history .unreadable).1 = Calculator.init 1000000 ∧
    ((Calculator.init 1000000).load_history .unreadable).2 =
      some (.operationError "Failed to load history") ∧
    (Calculator.init 1000000).load_history (.table [⟨"add", 2, 3⟩]) =
      ({ Calculator.init 1000000 with history := [⟨"add", 2, 3⟩] }, none) ∧
    (Calculator.init 1000000).load_history (.table []) = (Calculator.init 1000000, none) :=
  load_history_cases (Calculator.init 1000000) [⟨"add", 2, 3⟩] (by simp)

/-- C1 (code bug evidence): on an engine with one registered observer, a
successful `perform_operation` issues NO observer `update` events — the
source never calls `notify_observers` — although a notification pass over
the registered observers would be the non-empty event list the spec
requires. -/
theorem perform_operation_never_notifies :
    obs_state.observers = [7] ∧
    (obs_state.perform_operation 2 3).2 = .ok (5, []) ∧
    obs_state.notify_observers ⟨"add", 2, 3⟩ = [(7, ⟨"add", 2, 3⟩)] ∧
    (obs_state.perform_operation 2 3).2 ≠
      .ok (5, obs_state.notify_observers ⟨"add", 2, 3⟩) := by
  have hva : validate_number 2 obs_state.max_input_value = .ok 2 :=
    validate_number_ok (by show |(2:ℚ)| ≤ 1000000; norm_num)
  have hvb : validate_number 3 obs_state.max_input_value = .ok 3 :=
    validate_number_ok (by show |(3:ℚ)| ≤ 1000000; norm_num)
  have hex : add_op.execute 2 3 = .ok 5 := by
    show add_execute 2 3 = .ok 5
    norm_num [add_execute, base_validate_operands]
  have hp := perform_operation_ok obs_state add_op 2 3 2 3 5 rfl hva hvb hex
  refine ⟨rfl, by rw [hp], rfl, ?_⟩
  rw [hp]
  simp [Calculator.notify_observers, obs_state, Calculator.add_observer,
    Calculator.set_operation, Calculator.init]

/-- C2: every successful `perform_operation` pushes a memento of the
pre-call history onto the undo stack, leaves the redo stack empty
whatever it held before, and appends exactly one new entry to the
history list. -/
theorem perform_success_effects (s : Calculator) (a b r : ℚ)
    (ev : List (Nat × Calculation)) (s' : Calculator)
    (h : s.perform_operation a b = (s', .ok (r, ev))) :
    s'.undo_stack = s.undo_stack ++ [s.history] ∧
    s'.redo_stack = [] ∧
    ∃ c, s'.history = s.history ++ [c] := by
  unfold Calculator.perform_operation at h
  split at h
  · simp [Prod.ext_iff] at h
  · split at h
    · simp [Prod.ext_iff] at h
    · split at h
      · simp [Prod.ext_iff] at h
      · split at h
        · simp [Prod.ext_iff] at h
        · rw [Prod.mk.injEq] at h
          obtain ⟨h1, -⟩ := h
          subst h1
          exact ⟨rfl, rfl, _, rfl⟩

/-- Closed witness for C2 on a fresh engine with the add operation: after
`perform(2, 3)` the history has length 1, the undo stack has length 1
(holding the previously empty history), and the redo stack is empty. -/
theorem perform_success_effects_witness :
    ((ready_add.perform_operation 2 3).1.undo_stack
        = ready_add.undo_stack ++ [ready_add.history] ∧
      (ready_add.perform_operation 2 3).1.redo_stack = [] ∧
      ∃ c, (ready_add.perform_operation 2 3).1.history = ready_add.history ++ [c]) ∧
    (ready_add.perform_operation 2 3).2 = .ok (5, []) ∧
    (ready_add.perform_operation 2 3).1.history.length = 1 ∧
    (ready_add.perform_operation 2 3).1.undo_stack.length = 1 ∧
    (ready_add.perform_operation 2 3).1.redo_stack.length = 0 := by
  have hva : validate_number 2 ready_add.max_input_value = .ok 2 :=
    validate_number_ok (by show |(2:ℚ)| ≤ 1000000; norm_num)
  have hvb : validate_number 3 ready_add.max_input_value = .ok 3 :=
    validate_number_ok (by show |(3:ℚ)| ≤ 1000000; norm_num)
  have hex : add_op.execute 2 3 = .ok 5 := by
    show add_execute 2 3 = .ok 5
    norm_num [add_execute, base_validate_operands]
  have hp := perform_operation_ok ready_add add_op 2 3 2 3 5 rfl hva hvb hex
  refine ⟨perform_success_effects ready_add 2 3 5 []
      (ready_add.perform_operation 2 3).1 (by rw [hp]), ?_, ?_, ?_, ?_⟩ <;>
    (rw [hp]; try simp [ready_add, Calculator.set_operation, Calculator.init])

/-- C5: with any of the four zero-divisor-guarded operations selected
(divide, modulus, integer-divide, percentage), `perform_operation` with a
validated first operand and second operand 0 surfaces the
`ValidationError` unchanged (not wrapped into `OperationError`) and
leaves the whole state — history list, undo stack, redo stack —
exactly as it was. -/
theorem zero_divisor_surfaces_validation_error (op : Operation)
    (hop : op = div_op ∨ op = mod_op ∨ op = idiv_op ∨ op = perc_op)
    (s : Calculator) (a : ℚ)
    (hs : s.operation_strategy = some op)
    (ha : |a| ≤ s.max_input_value) :
    s.perform_operation a 0 =
      (s, .error (.validationError "Division by zero is not allowed")) := by
  have hb : |(0:ℚ)| ≤ s.max_input_value := by
    rw [abs_zero]
    exact le_trans (abs_nonneg a) ha
  have hex : op.execute a 0 = .error (.validationError "Division by zero is not allowed") := by
    rcases hop with rfl | rfl | rfl | rfl
    · show div_execute a 0 = _
      unfold div_execute div_validate_operands
      rw [if_pos rfl]
    · show mod_execute a 0 = _
      unfold mod_execute mod_validate_operands
      rw [if_pos rfl]
    · show (idiv_execute a 0).map (fun z => (z : ℚ)) = _
      unfold idiv_execute idiv_validate_operands
      rw [if_pos rfl]
      rfl
    · show perc_execute a 0 = _
      unfold perc_execute perc_validate_operands
      rw [if_pos rfl]
  rw [perform_operation_execute_error s op a 0 a 0 _ hs
    (validate_number_ok ha) (validate_number_ok hb) hex]
  rfl

/-- Closed witness for C5: dividing 2 by 0 on an engine with the divide
operation selected raises the unwrapped `ValidationError` and leaves the
state untouched. -/
theorem zero_divisor_surfaces_validation_error_witness :
    ready_div.perform_operation 2 0 =
      (ready_div, .error (.validationError "Division by zero is not allowed")) :=
  zero_divisor_surfaces_validation_error div_op (Or.inl rfl) ready_div 2 rfl
    (by show |(2:ℚ)| ≤ 1000000; norm_num)

/-- C6 counterexample: at `a = -5/2`, `b = 2` the integer-divide
operation returns `-1` (truncate toward zero, then floor-divide), not
`floor(a) // floor(b) = (-3) // 2 = -2` as the claim states. -/
theorem idiv_floor_claim_false :
    idiv_execute (-5/2 : ℚ) 2 ≠ .ok ((⌊(-5/2 : ℚ)⌋).fdiv ⌊(2 : ℚ)⌋) := by
  have h1 : idiv_execute (-5/2 : ℚ) 2 = .ok (-1) := by
    have ht2 : ratTrunc 2 = 2 := by
      unfold ratTrunc
      rw [if_neg (by norm_num)]
      norm_num
    have hta : ratTrunc (-5/2 : ℚ) = -2 := by
      unfold ratTrunc
      rw [if_pos (by norm_num)]
      norm_num
    unfold idiv_execute idiv_validate_operands
    rw [if_neg (by norm_num : ¬ (2:ℚ) = 0)]
    show (if ratTrunc 2 = 0 then Except.error (Err.zeroDivisionError "integer division or modulo by zero")
          else .ok ((ratTrunc (-5/2 : ℚ)).fdiv (ratTrunc 2))) = .ok (-1)
    rw [ht2, hta, if_neg (by norm_num : ¬ (2:ℤ) = 0),
      show ((-2:ℤ).fdiv 2) = -1 by decide]
  have h2 : (⌊(-5/2 : ℚ)⌋).fdiv ⌊(2 : ℚ)⌋ = -2 := by
    rw [show ⌊(-5/2 : ℚ)⌋ = -3 by norm_num, show ⌊(2:ℚ)⌋ = 2 by norm_num]
    decide
  rw [h1, h2]
  simp

/-- C6 amended: whenever the truncated divisor is non-zero, the
integer-divide operation returns the floor of `trunc(a) / trunc(b)`,
where `trunc` rounds toward zero (Python `int()`); this is an integral
result, and it agrees with `floor(a) // floor(b)` only when the
truncations and floors coincide (e.g. non-negative or integral
operands). -/
theorem idiv_trunc_floor_div (a b : ℚ) (hb : ratTrunc b ≠ 0) :
    idiv_execute a b = .ok ⌊((ratTrunc a : ℤ) : ℚ) / ((ratTrunc b : ℤ) : ℚ)⌋ := by
  have hb0 : b ≠ 0 := fun h => hb (h ▸ ratTrunc_zero)
  unfold idiv_execute idiv_validate_operands
  rw [if_neg hb0]
  show (if ratTrunc b = 0 then Except.error (Err.zeroDivisionError "integer division or modulo by zero")
        else .ok ((ratTrunc a).fdiv (ratTrunc b))) = _
  rw [if_neg hb, fdiv_eq_floor _ _ hb]

/-- Closed witness for C6's amended statement at `a = -5/2`, `b = 2`. -/
theorem idiv_trunc_floor_div_witness :
    idiv_execute (-5/2 : ℚ) 2 =
      .ok ⌊((ratTrunc (-5/2 : ℚ) : ℤ) : ℚ) / ((ratTrunc (2 : ℚ) : ℤ) : ℚ)⌋ :=
  idiv_trunc_floor_div (-5/2) 2 (by
    unfold ratTrunc
    rw [if_neg (by norm_num)]
    norm_num)

end App
